import Mathlib

/-!
Verification of the `astd` build pipeline (src/build.rs, src/gather_libs.rs).

The development shallowly embeds the pipeline's pure logic:

* the signature-extraction regex
  `(?m)^\s*(template\s*<[^;:{]+>\s*)?([\w:\*&<>\s]+)\s+(\w+)\s*\(`
  of `generate_bind_wrappers` (build.rs), as an explicit backtracking
  matcher with leftmost-first (Perl-style) capture semantics, the
  semantics the `regex` crate exposes through `captures_iter`;
* the wrapper-stub emission loop of `generate_bind_wrappers`;
* the version parsing and gating of `extract_version` / `is_version_valid`;
* the command trace of `__build` / `basics_check`, with external tool
  outputs supplied by an environment record;
* the directory traversals of `gather_libs` (build.rs) and
  `copy_files_with_filter` (gather_libs.rs) over an explicit
  filesystem-tree model.

Character classes are modelled at ASCII granularity (every input in the
repository's tests and headers is ASCII; the `regex` crate's `\w`, `\s`,
`\d` agree with the ASCII classes there).
-/

namespace Astd

/-! ### Character classes (ASCII fragments of the regex classes) -/

/-- The regex class `\s` (ASCII fragment). -/
def isWS (c : Char) : Bool :=
  c = ' ' || c = '\t' || c = '\n' || c = '\x0d' || c = '\x0b' || c = '\x0c'

/-- The regex class `\w` (ASCII fragment): letters, digits, underscore. -/
def isWordChar (c : Char) : Bool :=
  c.isAlphanum || c = '_'

/-- The return-type class `[\w:\*&<>\s]` of `func_regex`. -/
def isG2 (c : Char) : Bool :=
  isWordChar c || c = ':' || c = '*' || c = '&' || c = '<' || c = '>' || isWS c

/-- The template-body class `[^;:{]` of `func_regex`. -/
def notSCB (c : Char) : Bool :=
  !(c = ';' || c = ':' || c = '\x7b')

/-! ### Backtracking candidates

`starCands p s` enumerates the ways `p*` (greedy) can consume a prefix of
`s`, longest first; `plusCands` the same for `p+`.  Greedy quantifiers try
the longest candidate first, which is exactly the candidate order below. -/

/-- Candidates for a greedy `p*`: `(consumed, rest)` pairs, longest first. -/
def starCands (p : Char → Bool) (s : List Char) : List (List Char × List Char) :=
  let n := (s.takeWhile p).length
  ((List.range (n + 1)).reverse).map (fun i => (s.take i, s.drop i))

/-- Candidates for a greedy `p+`: `(consumed, rest)` pairs, longest first. -/
def plusCands (p : Char → Bool) (s : List Char) : List (List Char × List Char) :=
  let n := (s.takeWhile p).length
  ((List.range n).reverse).map (fun i => (s.take (i + 1), s.drop (i + 1)))

/-- The literal `template` of the optional first capture group. -/
def litTemplate : List Char := ['t', 'e', 'm', 'p', 'l', 'a', 't', 'e']

/-- Candidates for capture group 1, `template\s*<[^;:{]+>\s*`, in greedy
backtracking order; each candidate is `(captured text, rest)`. -/
def g1Cands (s : List Char) : List (List Char × List Char) :=
  if s.take 8 = litTemplate then
    let r0 := s.drop 8
    (starCands isWS r0).flatMap (fun ws1 =>
      match ws1.2 with
      | '<' :: r2 =>
        (plusCands notSCB r2).flatMap (fun inner =>
          match inner.2 with
          | '>' :: r4 =>
            (starCands isWS r4).map (fun ws2 =>
              (litTemplate ++ ws1.1 ++ '<' :: (inner.1 ++ '>' :: ws2.1), ws2.2))
          | _ => [])
      | _ => [])
  else []

/-- Candidates for the tail `([\w:\*&<>\s]+)\s+(\w+)\s*\(` after the
optional template group: `(group1, group2, group3, rest)` quadruples in
greedy backtracking order. -/
def tailCands (g1 : Option (List Char)) (s : List Char) :
    List (Option (List Char) × List Char × List Char × List Char) :=
  (plusCands isG2 s).flatMap (fun g2 =>
    (plusCands isWS g2.2).flatMap (fun w =>
      (plusCands isWordChar w.2).flatMap (fun nm =>
        (starCands isWS nm.2).flatMap (fun w2 =>
          match w2.2 with
          | '(' :: r => [(g1, g2.1, nm.1, r)]
          | _ => []))))

/-- One attempt of `func_regex` at a line-start position: the first
candidate in leftmost-first order (group 1 present preferred over absent,
greedy quantifiers longest first). -/
def matchAt (s : List Char) : Option (Option (List Char) × List Char × List Char × List Char) :=
  ((starCands isWS s).flatMap (fun w0 =>
    (g1Cands w0.2).flatMap (fun g1 => tailCands (some g1.1) g1.2)
      ++ tailCands none w0.2)).head?

/-- Scan of `captures_iter`: attempts the pattern at every line-start
position (`(?m)^`), left to right, resuming after the end of each match.
`fuel` only bounds the recursion; `fuel = length of the list` suffices
because every step consumes at least one character. -/
def scanAux : Nat → Bool → List Char → List (Option String × String × String)
  | 0, _, _ => []
  | _ + 1, _, [] => []
  | fuel + 1, atStart, c :: cs =>
    if atStart then
      match matchAt (c :: cs) with
      | some (g1, g2, g3, r) =>
        (g1.map String.mk, String.mk g2, String.mk g3) :: scanAux fuel false r
      | none => scanAux fuel (c = '\n') cs
    else scanAux fuel (c = '\n') cs

/-- All captures of `func_regex` over a text, in match order: for each
match, (group 1 = optional template preamble, group 2 = return-type run,
group 3 = identifier before the opening parenthesis). -/
def rawMatches (s : String) : List (Option String × String × String) :=
  scanAux s.data.length true s.data

/-! ### Signature records and wrapper emission -/

/-- Rust `str::trim` restricted to the whitespace class used above. -/
def trimWS (s : String) : String :=
  String.mk (((s.data.dropWhile isWS).reverse.dropWhile isWS).reverse)

/-- Modelled from the spec: `astd::extract_function_details`, the
signature extractor exercised by src/tests/extract_function_details.rs,
is not present under src/ (only its tests are).  Per spec section 3 and
section 4.3 it yields, for every `func_regex` match in order, a record
(template preamble, return type, name), with the preamble empty for a
non-generic declaration and the textual fields trimmed of surrounding
whitespace.  The matches themselves come from the source regex
(`func_regex` in build.rs, reproduced by `rawMatches`). -/
def extract_function_details (source : String) : List (String × String × String) :=
  (rawMatches source).map (fun m => (trimWS (m.1.getD ""), trimWS m.2.1, m.2.2))

/-- One iteration of the `captures_iter` loop in `generate_bind_wrappers`
(build.rs): `return_type` is `cap.get(1).unwrap().as_str().trim()` — the
`unwrap` of the optional template group, whose absence is a panic,
modelled by `none` — and `func_name` is `cap.get(2).unwrap().as_str().trim()`,
the return-type capture.  Names starting with `LOW_LEVEL_ALLOC` are
skipped; otherwise a comment line, the stub line and a blank line are
appended. -/
def wrapperStep (fname : String) (acc : Option (List String))
    (m : Option String × String × String) : Option (List String) :=
  match acc with
  | none => none
  | some lines =>
    match m.1 with
    | none => none
    | some pre =>
      let ret := trimWS pre
      let name := trimWS m.2.1
      if name.startsWith "LOW_LEVEL_ALLOC" then some lines
      else some (lines ++
        ["  // Wrapper for function declared in \"" ++ fname ++ "\"",
         "  " ++ ret ++ " " ++ name ++ "_wrapper() \x7b return " ++ name ++ "(); \x7d",
         ""])

/-- The lines `generate_bind_wrappers` (build.rs) writes for one header
file with name `fname` and text `contents`; `none` models the panic on a
match without the template capture group. -/
def generate_bind_wrappers_file (fname : String) (contents : String) : Option (List String) :=
  (rawMatches contents).foldl (wrapperStep fname) (some [])

/-! ### Version gate (build.rs: `extract_version`, `is_version_valid`) -/

/-- Numeric value of a digit run. -/
def natOfDigits (l : List Char) : Nat :=
  l.foldl (fun a c => 10 * a + (c.toNat - '0'.toNat)) 0

/-- One attempt of the regex `(\d+)\.(\d+)\.(\d+)` at a position: each
`\d+` is a maximal digit run (no shorter candidate can be followed by the
literal dot, which is not a digit). -/
def matchTripleAt (s : List Char) : Option (Nat × Nat × Nat) :=
  let d1 := s.takeWhile Char.isDigit
  if d1.isEmpty then none else
  match s.drop d1.length with
  | '.' :: r1 =>
    let d2 := r1.takeWhile Char.isDigit
    if d2.isEmpty then none else
    (match r1.drop d2.length with
     | '.' :: r2 =>
       let d3 := r2.takeWhile Char.isDigit
       if d3.isEmpty then none else some (natOfDigits d1, natOfDigits d2, natOfDigits d3)
     | _ => none)
  | _ => none

/-- Leftmost match of `(\d+)\.(\d+)\.(\d+)`: the first position (left to
right) where the pattern matches. -/
def findTriple : List Char → Option (Nat × Nat × Nat)
  | [] => none
  | c :: rest =>
    match matchTripleAt (c :: rest) with
    | some t => some t
    | none => findTriple rest

/-- Rust `str::parse::<u32>` on a nonempty digit run: the value when it
fits in 32 bits, `None` on overflow. -/
def parseU32 (n : Nat) : Option Nat :=
  if n < 4294967296 then some n else none

/-- build.rs `extract_version`: first dotted triple of the string, each
component parsed as `u32`. -/
def extract_version (version : String) : Option (Nat × Nat × Nat) :=
  match findTriple version.data with
  | none => none
  | some (a, b, c) =>
    match parseU32 a, parseU32 b, parseU32 c with
    | some a', some b', some c' => some (a', b', c')
    | _, _, _ => none

/-- Rust's derived lexicographic `>=` on `(u32, u32, u32)`. -/
def tupleGE (x y : Nat × Nat × Nat) : Bool :=
  if x.1 = y.1 then
    (if x.2.1 = y.2.1 then decide (y.2.2 ≤ x.2.2) else decide (y.2.1 < x.2.1))
  else decide (y.1 < x.1)

/-- build.rs `is_version_valid`: the extracted triple compares `>=`
against the required triple; an unparsable version fails. -/
def is_version_valid (version_token : String) (req : Nat × Nat × Nat) : Bool :=
  match extract_version version_token with
  | some v => tupleGE v req
  | none => false

/-- Lexicographic `≥` on triples as a proposition (standard tuple order). -/
def lexGE (x y : Nat × Nat × Nat) : Prop :=
  y.1 < x.1 ∨ (x.1 = y.1 ∧ (y.2.1 < x.2.1 ∨ (x.2.1 = y.2.1 ∧ y.2.2 ≤ x.2.2)))

instance (x y : Nat × Nat × Nat) : Decidable (lexGE x y) := by
  unfold lexGE; infer_instance

/-! ### Pipeline driver trace (build.rs: `__build`, `basics_check`) -/

/-- Generic subsequence-of-consecutive-elements test (used both for the
MSVC capability regex, which is a fixed-string alternation, and for
asking whether a flag sequence is passed inside an argument vector). -/
def containsSeq [DecidableEq α] (pat : List α) : List α → Bool
  | [] => pat.isEmpty
  | c :: cs => pat.isPrefixOf (c :: cs) || containsSeq pat cs

/-- Constants of build.rs. -/
def MINIMUM_GIT_VERSION : Nat × Nat × Nat := (2, 40, 0)

/-- Constants of build.rs. -/
def MINIMUM_CMAKE_VERSION : Nat × Nat × Nat := (3, 31, 0)

/-- Constants of build.rs. -/
def ABSEIL_SRC : String := "https://github.com/abseil/abseil-cpp.git"

/-- Constants of build.rs. -/
def BUILD_DIR : String := "target/"

/-- Constants of build.rs. -/
def ABSEIL_BUILD_DIR : String := "target/abseil-cpp/build/"

/-- `CONFIG_FLAGS` as assembled by `build_flags`, as a function of the
two `cfg` conditions (`debug_assertions`, windows-msvc target). -/
def config_flags (debug windows_msvc : Bool) : List String :=
  ["-DABSL_USE_GOOGLETEST_HEAD=ON", "-DCMAKE_CXX_STANDARD_REQUIRED=ON",
   "-DCMAKE_CXX_STANDARD=20"]
  ++ (if debug then ["-DCMAKE_BUILD_TYPE=Debug"] else ["-DCMAKE_BUILD_TYPE=Release"])
  ++ (if windows_msvc then ["-DABSL_MSVC_STATIC_RUNTIME=ON"] else [])

/-- `COMPILE_FLAGS` as assembled by `build_flags`, as a function of the
two `cfg` conditions. -/
def compile_flags (debug windows_msvc : Bool) : List String :=
  (if windows_msvc then ["--build"] else [])
  ++ [".", "--", "/p:Platform=x64"]
  ++ (if windows_msvc && debug then ["/p:Configuration=Debug"]
      else if windows_msvc && !debug then ["/p:Configuration=Release"]
      else [])

/-- Captured outputs of the external tools consulted by `basics_check`. -/
structure ToolEnv where
  git_version : String
  cmake_version : String
  capabilities : String

/-- An external command invocation: program, argument vector, working
directory (the observable interface of `run_command`). -/
structure Cmd where
  program : String
  args : List String
  cwd : String
deriving DecidableEq

/-- `check_git_version` gate condition (panic when false). -/
def gitVersionOK (env : ToolEnv) : Bool :=
  is_version_valid env.git_version MINIMUM_GIT_VERSION

/-- `check_cmake_version` gate condition (panic when false). -/
def cmakeVersionOK (env : ToolEnv) : Bool :=
  is_version_valid env.cmake_version MINIMUM_CMAKE_VERSION

/-- `check_msvc_version` gate condition: the regex
`Visual Studio (16 2019|17 2022)` finds a match iff one of the two
fixed strings occurs in the capability output. -/
def msvcCapsOK (env : ToolEnv) : Bool :=
  containsSeq "Visual Studio 16 2019".data env.capabilities.data
  || containsSeq "Visual Studio 17 2022".data env.capabilities.data

/-- Command trace of the windows-msvc `basics_check`: git `--version`,
then CMake `--version`, then CMake `-E capabilities`, each gate panicking
(flag `false`) before the next command runs. -/
def basics_check_trace (env : ToolEnv) : List Cmd × Bool :=
  let c1 : Cmd := ⟨"git", ["--version"], BUILD_DIR⟩
  let c2 : Cmd := ⟨"CMake", ["--version"], BUILD_DIR⟩
  let c3 : Cmd := ⟨"CMake", ["-E", "capabilities"], BUILD_DIR⟩
  if gitVersionOK env then
    if cmakeVersionOK env then
      if msvcCapsOK env then ([c1, c2, c3], true) else ([c1, c2, c3], false)
    else ([c1, c2], false)
  else ([c1], false)

/-- External-command trace of `__build`: the commands issued in order and
whether the run got past them without a panic.  On a non-windows host
`basics_check` panics before any invocation.  After the gates pass,
`__build` clones, pushes `".."` onto `CONFIG_FLAGS`, runs the CMake
configure step with `CONFIG_FLAGS`, and runs the CMake build step with
the same (unchanged) `CONFIG_FLAGS`; `COMPILE_FLAGS` is never read.
Directory creation and the gather/bind stages issue no external
commands. -/
def buildTrace (windows : Bool) (env : ToolEnv) (debug : Bool) : List Cmd × Bool :=
  if windows then
    let bc := basics_check_trace env
    if bc.2 then
      (bc.1 ++
        [⟨"git", ["clone", ABSEIL_SRC], BUILD_DIR⟩,
         ⟨"cmake", config_flags debug true ++ [".."], ABSEIL_BUILD_DIR⟩,
         ⟨"cmake", config_flags debug true ++ [".."], ABSEIL_BUILD_DIR⟩], true)
    else (bc.1, false)
  else ([], false)

/-- A command reaching the clone, configure or build stage: the clone
argument vector, or the lowercase `cmake` program used by the configure
and build steps (the gate probes use the distinct spelling `CMake`). -/
def isBuildStep (c : Cmd) : Bool :=
  decide (c.args = ["clone", ABSEIL_SRC]) || decide (c.program = "cmake")

/-! ### Filesystem model (gather_libs.rs, build.rs traversals) -/

/-- A filesystem subtree: a `file` carries its name and whether copying
it out fails (the per-file I/O oracle); a `dir` carries its name and its
entries in `read_dir` order. -/
inductive FsTree where
  | file (name : String) (copyFails : Bool)
  | dir (name : String) (children : List FsTree)

/-- Rust `Path::extension` on a file name: the part after the last dot,
`none` when there is no dot or the only dot is the leading one. -/
def extOf (name : String) : Option String :=
  let cs := name.data
  let after := cs.reverse.takeWhile (fun c => c ≠ '.')
  if after.length = cs.length then none
  else if after.length + 1 = cs.length then none
  else some (String.mk after.reverse)

/-- ASCII lowercasing of one character. -/
def asciiLowerChar (c : Char) : Char :=
  if 'A' ≤ c ∧ c ≤ 'Z' then Char.ofNat (c.toNat + 32) else c

/-- ASCII lowercasing of a string (`eq_ignore_ascii_case` support). -/
def asciiLower (s : String) : String :=
  String.mk (s.data.map asciiLowerChar)

/-- `ext.to_string_lossy().eq_ignore_ascii_case("h")` on a file name. -/
def isHeaderName (name : String) : Bool :=
  match extOf name with
  | some e => asciiLower e = "h"
  | none => false

/-- A performed copy: source path and destination path, both as segment
lists relative to the traversal root and the destination root (the
destination root itself is a fixed ambient directory outside the model). -/
structure CopyOp where
  src : List String
  destRel : List String
deriving DecidableEq

/-- The `Debug`-segment filter of `copy_files_with_filter`
(gather_libs.rs lines 69-76). -/
def stripDebug (remove_debug : Bool) (p : List String) : List String :=
  if remove_debug then p.filter (fun s => s ≠ "Debug") else p

/-- gather_libs.rs `copy_files_with_filter`, at the level of one
directory's entry list: returns the copies performed in order and whether
the traversal returned `Ok` (`false` models an `Err` propagated by `?`
from a failed `fs::copy` or recursive call, which abandons the remaining
entries).  `rel` is the path from `source_base` to the current directory;
the predicate sees the file's path as the source does. -/
def copy_files_with_filter (pred : List String → Bool) (remove_debug : Bool) :
    List String → List FsTree → List CopyOp × Bool
  | _, [] => ([], true)
  | rel, .file name copyFails :: es =>
    if pred (rel ++ [name]) then
      if copyFails then ([], false)
      else
        let rest := copy_files_with_filter pred remove_debug rel es
        (⟨rel ++ [name], stripDebug remove_debug (rel ++ [name])⟩ :: rest.1, rest.2)
    else copy_files_with_filter pred remove_debug rel es
  | rel, .dir name children :: es =>
    let sub := copy_files_with_filter pred remove_debug (rel ++ [name]) children
    if sub.2 then
      let rest := copy_files_with_filter pred remove_debug rel es
      (sub.1 ++ rest.1, rest.2)
    else sub

/-- Rust `str::ends_with` over character lists. -/
def endsWithSeq (pat s : List Char) : Bool :=
  pat.reverse.isPrefixOf s.reverse

/-- The first-operation predicate of gather_libs.rs `main`: `.lib` or
`.pdb` files lying under a `Debug` path component. -/
def gatherLibsPred (p : List String) : Bool :=
  let file := p.getLastD ""
  (endsWithSeq ".lib".data file.data || endsWithSeq ".pdb".data file.data)
    && p.contains "Debug"

/-- Outcome of a build.rs gather stage. -/
inductive Outcome where
  | ok
  | err
  | panicked
deriving DecidableEq

/-- `fs::read_dir` on an optional root: a missing root is an `Err`. -/
def read_dir : Option FsTree → Except String (List FsTree)
  | none => .error "NotFound"
  | some (.file _ _) => .error "NotADirectory"
  | some (.dir _ es) => .ok es

/-- build.rs `gather_libs::visit_dirs` over an entry list: files with
extension exactly `lib`, `pdb` or `exp` are copied flat (destination is
the bare file name); a failing `fs::copy` is an immediate panic
(`unwrap_or_else(|_| panic!(..))`), abandoning the rest. -/
def visit_dirs_libs : List String → List FsTree → List CopyOp × Outcome
  | _, [] => ([], .ok)
  | rel, .file name copyFails :: es =>
    if extOf name = some "lib" || extOf name = some "pdb" || extOf name = some "exp" then
      if copyFails then ([], .panicked)
      else
        let rest := visit_dirs_libs rel es
        (⟨rel ++ [name], [name]⟩ :: rest.1, rest.2)
    else visit_dirs_libs rel es
  | rel, .dir name children :: es =>
    let sub := visit_dirs_libs (rel ++ [name]) children
    match sub.2 with
    | .ok =>
      let rest := visit_dirs_libs rel es
      (sub.1 ++ rest.1, rest.2)
    | o => (sub.1, o)

/-- build.rs `gather_libs`: `visit_dirs(source, destination)` on the
source root (a `read_dir` failure on the root is an `Err`), then
`.expect("Failed to gather libs")`, which turns an `Err` into a panic. -/
def gather_libs_model (root : Option FsTree) : List CopyOp × Outcome :=
  let r :=
    match read_dir root with
    | .error _ => (([] : List CopyOp), Outcome.err)
    | .ok es => visit_dirs_libs [] es
  match r.2 with
  | .err => (r.1, .panicked)
  | o => (r.1, o)

/-! ### Include emission (build.rs: `generate_bind_includes`) -/

/-- All file paths in the tree, in `generate_bind_includes` traversal
order (entries in `read_dir` order, directories expanded in place). -/
def allFiles : List String → List FsTree → List (List String)
  | _, [] => []
  | rel, .file name _ :: es => (rel ++ [name]) :: allFiles rel es
  | rel, .dir name children :: es =>
    allFiles (rel ++ [name]) children ++ allFiles rel es

/-- Render a relative path with the host separator `sep`, then apply the
source's `replace("\\", "/")` (every backslash character becomes a
forward slash). -/
def renderInclude (sep : Char) (segs : List String) : String :=
  String.mk (((segs.map String.data).intersperse [sep]).flatten.map
    (fun c => if c = '\\' then '/' else c))

/-- build.rs `generate_bind_includes`: one `#include` line per entry with
a header extension (`eq_ignore_ascii_case("h")`), in traversal order,
with the path relative to the include root rendered via `renderInclude`.
`sep` is the host path separator. -/
def generate_bind_includes (sep : Char) : List String → List FsTree → List String
  | _, [] => []
  | rel, .file name _ :: es =>
    if isHeaderName name then
      ("#include \"" ++ renderInclude sep (rel ++ [name]) ++ "\"")
        :: generate_bind_includes sep rel es
    else generate_bind_includes sep rel es
  | rel, .dir name children :: es =>
    generate_bind_includes sep (rel ++ [name]) children
      ++ generate_bind_includes sep rel es

/-! ### Helper lemmas -/

theorem foldl_wrapperStep_none (f : String) (l : List (Option String × String × String)) :
    l.foldl (wrapperStep f) none = none := by
  induction l with
  | nil => rfl
  | cons m t ih => simpa [wrapperStep] using ih

theorem foldl_wrapperStep_none_of_mem (f : String)
    (l : List (Option String × String × String)) :
    ∀ acc m, m ∈ l → m.1 = none → l.foldl (wrapperStep f) acc = none := by
  induction l with
  | nil => intro acc m hm; exact absurd hm (List.not_mem_nil m)
  | cons h t ih =>
    intro acc m hm hnone
    rcases List.mem_cons.1 hm with rfl | hmem
    · have hstep : wrapperStep f acc m = none := by
        cases acc <;> simp [wrapperStep, hnone]
      simp only [List.foldl_cons, hstep]
      exact foldl_wrapperStep_none f t
    · exact ih (wrapperStep f acc h) m hmem hnone

theorem tupleGE_iff (x y : Nat × Nat × Nat) : tupleGE x y = true ↔ lexGE x y := by
  obtain ⟨a, b, c⟩ := x
  obtain ⟨d, e, f⟩ := y
  unfold tupleGE lexGE
  by_cases h1 : a = d
  · by_cases h2 : b = e
    · subst h1; subst h2; simp
    · subst h1; simp [h2]
  · simp [h1]

theorem copy_no_debug_aux (pred : List String → Bool) (rel : List String) (es : List FsTree) :
    ∀ op ∈ (copy_files_with_filter pred true rel es).1, "Debug" ∉ op.destRel := by
  induction rel, es using copy_files_with_filter.induct pred true with
  | case1 rel => simp [copy_files_with_filter]
  | case2 rel name es hpred => simp [copy_files_with_filter, hpred]
  | case3 rel name copyFails es hpred hfail ih =>
    intro op hop
    simp only [copy_files_with_filter, hpred, if_true, eq_false_of_ne_true hfail] at hop
    rw [if_neg (by simp at hfail; simp [hfail])] at hop
    rcases List.mem_cons.1 hop with rfl | hmem
    · simp only [stripDebug, if_pos rfl]
      intro hdbg
      exact absurd (List.of_mem_filter hdbg) (by simp)
    · exact ih op hmem
  | case4 rel name copyFails es hpred ih =>
    intro op hop
    rw [copy_files_with_filter, if_neg hpred] at hop
    exact ih op hop
  | case5 rel name children es sub hok ih1 ih2 =>
    intro op hop
    rw [copy_files_with_filter] at hop
    simp only [if_pos hok] at hop
    rcases List.mem_append.1 hop with hmem | hmem
    · exact ih1 op hmem
    · exact ih2 op hmem
  | case6 rel name children es sub hnok ih1 =>
    intro op hop
    rw [copy_files_with_filter] at hop
    simp only [if_neg hnok] at hop
    exact ih1 op hop

theorem includes_eq_aux (sep : Char) (rel : List String) (es : List FsTree) :
    generate_bind_includes sep rel es
      = ((allFiles rel es).filter (fun p => isHeaderName (p.getLastD ""))).map
          (fun p => "#include \"" ++ renderInclude sep p ++ "\"") := by
  induction rel, es using generate_bind_includes.induct sep with
  | case1 rel => simp [generate_bind_includes, allFiles]
  | case2 rel name copyFails es hh ih =>
    have hlast : (rel ++ [name]).getLastD "" = name := List.getLastD_concat _ _ _
    simp [generate_bind_includes, allFiles, hlast, hh, ih]
  | case3 rel name copyFails es hh ih =>
    have hlast : (rel ++ [name]).getLastD "" = name := List.getLastD_concat _ _ _
    simp [generate_bind_includes, allFiles, hlast, hh, ih]
  | case4 rel name children es ih1 ih2 =>
    simp [generate_bind_includes, allFiles, ih1, ih2]

theorem renderInclude_no_bs (sep : Char) (segs : List String) :
    '\\' ∉ (renderInclude sep segs).data := by
  intro h
  simp only [renderInclude] at h
  rcases List.mem_map.1 h with ⟨c, _, hc⟩
  by_cases h2 : c = '\\'
  · rw [if_pos h2] at hc
    exact absurd hc (by decide)
  · rw [if_neg h2] at hc
    exact h2 hc

theorem basics_trace_no_build_step (env : ToolEnv) :
    (basics_check_trace env).1.all (fun c => !(isBuildStep c)) = true := by
  by_cases hg : gitVersionOK env <;> by_cases hc : cmakeVersionOK env <;>
    by_cases hm : msvcCapsOK env <;>
      simp only [basics_check_trace, hg, hc, hm, if_true, if_false] <;> decide

theorem basics_trace_fails (env : ToolEnv)
    (h : gitVersionOK env = false ∨ cmakeVersionOK env = false ∨ msvcCapsOK env = false) :
    (basics_check_trace env).2 = false := by
  rcases h with h | h | h <;>
    by_cases hg : gitVersionOK env <;> by_cases hc : cmakeVersionOK env <;>
      by_cases hm : msvcCapsOK env <;>
        simp_all [basics_check_trace]

/-! ### Claim theorems -/

/-- C1: the claim says that for every extracted signature whose name does
not start with `LOW_LEVEL_ALLOC` the emitter writes a stub
`<name>_wrapper` typed with the extracted return type and calling
`<name>()`.  The code instead reads capture group 1 (the template
preamble) as the return type and group 2 (the return type) as the name,
ignoring the real name in group 3: on the non-template declaration
`int my_function(int a, float b);` — exactly the shape the regex's own
comment documents as capturing `int` / `my_function` — the `unwrap` of
the absent group 1 panics, and on
`template <typename T> T func_template(T a);` the emitted stub is
`template <typename T> T_wrapper() ... return T();` instead of the
claimed `T func_template_wrapper() ... return func_template();`. -/
theorem C1_wrapper_emitter_misuses_captures :
    generate_bind_wrappers_file "x.h" "int my_function(int a, float b);" = none
  ∧ generate_bind_wrappers_file "x.h" "template <typename T> T func_template(T a);"
      = some ["  // Wrapper for function declared in \"x.h\"",
              "  template <typename T> T_wrapper() \x7b return T(); \x7d",
              ""] := by
  exact ⟨rfl, rfl⟩

/-- C2: on input `template <typename T> T func_template(T a);` the
signature extractor yields exactly one record with template prefix
`template <typename T>` (trimmed, no trailing whitespace), return type
`T` and name `func_template`. -/
theorem C2_template_extraction :
    extract_function_details "template <typename T> T func_template(T a);"
      = [("template <typename T>", "T", "func_template")] := by
  rfl

/-- C3 counterexample: the string `4294967296.0.0` contains the dotted
triple (4294967296, 0, 0), which is lexicographically ≥ the policy
(2, 40, 0), yet the gate rejects it: 4294967296 overflows `u32`, so
`parse::<u32>` fails and `extract_version` returns `None`. -/
theorem C3_counterexample :
    findTriple "4294967296.0.0".data = some (4294967296, 0, 0)
  ∧ lexGE (4294967296, 0, 0) (2, 40, 0)
  ∧ is_version_valid "4294967296.0.0" (2, 40, 0) = false := by
  exact ⟨by decide, by decide, by decide⟩

/-- C3 (amended): for every string whose first dotted triple has all
components below 2^32, the gate accepts iff the triple is
lexicographically ≥ the policy; a string with no dotted triple is
rejected. -/
theorem C3_version_gate (s : String) (req : Nat × Nat × Nat) :
    (∀ a b c : Nat, findTriple s.data = some (a, b, c) →
      a < 4294967296 → b < 4294967296 → c < 4294967296 →
      (is_version_valid s req = true ↔ lexGE (a, b, c) req))
  ∧ (findTriple s.data = none → is_version_valid s req = false) := by
  constructor
  · intro a b c h ha hb hc
    have hev : extract_version s = some (a, b, c) := by
      simp [extract_version, h, parseU32, ha, hb, hc]
    simp only [is_version_valid, hev]
    exact tupleGE_iff (a, b, c) req
  · intro h
    simp [is_version_valid, extract_version, h]

/-- C3 witness: the gate accepts `git version 2.42.0` against policy
(2, 40, 0), via the amended theorem at that concrete input. -/
theorem C3_version_gate_witness :
    is_version_valid "git version 2.42.0" (2, 40, 0) = true :=
  ((C3_version_gate "git version 2.42.0" (2, 40, 0)).1 2 42 0 (by decide)
    (by decide) (by decide) (by decide)).mpr (by decide)

/-- C4 counterexample: on a missing source root, `gather_libs` does not
log-and-return-empty — the `read_dir` error propagates out of
`visit_dirs` and `.expect("Failed to gather libs")` panics, so the
outcome is `panicked`, not `ok`. -/
theorem C4_counterexample :
    gather_libs_model none = ([], Outcome.panicked) ∧ Outcome.panicked ≠ Outcome.ok := by
  exact ⟨rfl, by decide⟩

/-- C4 (amended): if the source root does not exist, the collector fails
the pipeline: `fs::read_dir` returns an error, `visit_dirs` propagates
it, and `gather_libs`'s `expect` turns it into a panic that aborts the
run; nothing is copied and no warning-and-continue path exists. -/
theorem C4_missing_root_aborts :
    read_dir none = Except.error "NotFound"
  ∧ gather_libs_model none = ([], Outcome.panicked) := by
  exact ⟨rfl, rfl⟩

/-- C5 counterexample: with the gather predicate of gather_libs.rs, a
tree `Debug/{a.lib, b.lib}` in which copying `a.lib` fails yields an
aborted traversal with no copies at all: the failed `fs::copy` error is
propagated by `?`, so the sibling `b.lib` is never visited, contradicting
the claim that sibling files are still copied. -/
theorem C5_counterexample :
    copy_files_with_filter gatherLibsPred true []
        [FsTree.dir "Debug" [FsTree.file "a.lib" true, FsTree.file "b.lib" false]]
      = ([], false) := by
  have h : gatherLibsPred ["Debug", "a.lib"] = true := by decide
  simp [copy_files_with_filter, h]

/-- C5 (amended): a per-file copy failure aborts the traversal: when the
first entry of a directory is a file satisfying the predicate whose copy
fails, `copy_files_with_filter` returns the propagated error immediately
and none of the sibling entries is visited or copied (build.rs's
`visit_dirs` likewise panics on the first failed copy). -/
theorem C5_copy_failure_aborts (pred : List String → Bool) (rd : Bool)
    (rel : List String) (name : String) (es : List FsTree)
    (h : pred (rel ++ [name]) = true) :
    copy_files_with_filter pred rd rel (FsTree.file name true :: es) = ([], false) := by
  simp [copy_files_with_filter, h]

/-- C5 witness: the amended theorem at a concrete input. -/
theorem C5_copy_failure_aborts_witness :
    copy_files_with_filter (fun _ => true) false [] [FsTree.file "a.lib" true] = ([], false) :=
  C5_copy_failure_aborts (fun _ => true) false [] "a.lib" [] rfl

/-- C6: with the strip-set enabled (`remove_debug = true`), no copy
produced by `copy_files_with_filter` has a `Debug` segment in its
destination path (the part below the destination root, which is the
portion the collector computes). -/
theorem C6_no_debug_segment (pred : List String → Bool) (es : List FsTree) (op : CopyOp)
    (h : op ∈ (copy_files_with_filter pred true [] es).1) : "Debug" ∉ op.destRel :=
  copy_no_debug_aux pred [] es op h

/-- C6 witness: a file inside a `Debug` directory is copied to a
destination path with the `Debug` segment stripped. -/
theorem C6_no_debug_segment_witness :
    "Debug" ∉ (CopyOp.mk ["Debug", "a.lib"] ["a.lib"]).destRel :=
  C6_no_debug_segment (fun _ => true) [FsTree.dir "Debug" [FsTree.file "a.lib" false]]
    (CopyOp.mk ["Debug", "a.lib"] ["a.lib"])
    (by simp [copy_files_with_filter, stripDebug])

/-- C7: the emitter writes exactly one `#include` line per discovered
header (the files whose extension is `h` up to ASCII case), in traversal
order, each rendering the root-relative path; and no rendered include
path contains a backslash, whatever the host separator `sep` is. -/
theorem C7_include_emission (sep : Char) (es : List FsTree) :
    generate_bind_includes sep [] es
      = ((allFiles [] es).filter (fun p => isHeaderName (p.getLastD ""))).map
          (fun p => "#include \"" ++ renderInclude sep p ++ "\"")
  ∧ ∀ p ∈ allFiles [] es, '\\' ∉ (renderInclude sep p).data :=
  ⟨includes_eq_aux sep [] es, fun p _ => renderInclude_no_bs sep p⟩

/-- C7 witness: on a Windows-separator host, the include path for
`absl\config.h` is emitted backslash-free. -/
theorem C7_include_emission_witness :
    '\\' ∉ (renderInclude '\\' ["absl", "config.h"]).data :=
  (C7_include_emission '\\' [FsTree.dir "absl" [FsTree.file "config.h" false]]).2
    ["absl", "config.h"] (by simp [allFiles])

/-- C8: when any required tool fails its gate (git version, CMake
version, or the MSVC capability probe), the command trace of `__build`
contains no clone invocation and no lowercase-`cmake`
configure/build invocation: `basics_check` panics first. -/
theorem C8_gate_failure_blocks_build (windows debug : Bool) (env : ToolEnv)
    (h : gitVersionOK env = false ∨ cmakeVersionOK env = false ∨ msvcCapsOK env = false) :
    (buildTrace windows env debug).1.all (fun c => !(isBuildStep c)) = true := by
  cases windows with
  | false => simp [buildTrace]
  | true =>
    have h2 : (basics_check_trace env).2 = false := basics_trace_fails env h
    simp only [buildTrace, if_true, h2, Bool.false_eq_true, if_false]
    exact basics_trace_no_build_step env

/-- C8 witness: with a git too old for the policy, the trace holds no
clone/configure/build command. -/
theorem C8_gate_failure_blocks_build_witness :
    (buildTrace true (ToolEnv.mk "git version 1.0.0" "" "") true).1.all
      (fun c => !(isBuildStep c)) = true :=
  C8_gate_failure_blocks_build true true (ToolEnv.mk "git version 1.0.0" "" "")
    (Or.inl (by decide))

/-- C9: whenever some `func_regex` match in a header lacks the template
capture group, the wrapper generator's `cap.get(1).unwrap()` panics, so
the wrapper lines for that file are never produced (and `generate_bindings`
fails); consequently wrapper emission completes only when every match
carries a template preamble. -/
theorem C9_panic_without_template (fname contents : String) :
    ((∃ m ∈ rawMatches contents, m.1 = none) →
      generate_bind_wrappers_file fname contents = none)
  ∧ (∀ res, generate_bind_wrappers_file fname contents = some res →
      ∀ m ∈ rawMatches contents, m.1 ≠ none) := by
  constructor
  · rintro ⟨m, hm, hnone⟩
    exact foldl_wrapperStep_none_of_mem fname (rawMatches contents) (some []) m hm hnone
  · intro res hres m hm hnone
    have := foldl_wrapperStep_none_of_mem fname (rawMatches contents) (some []) m hm hnone
    rw [generate_bind_wrappers_file] at hres
    rw [this] at hres
    exact Option.noConfusion hres

/-- C9 witness: a plain C declaration (no template preamble) makes
wrapper generation panic. -/
theorem C9_panic_without_template_witness :
    generate_bind_wrappers_file "x.h" "int sum(int a, int b);" = none :=
  (C9_panic_without_template "x.h" "int sum(int a, int b);").1
    ⟨(none, "int", "sum"), by decide, rfl⟩

/-- C10: once the gates pass, the six-command trace of `__build` invokes
the CMake build step with exactly the configure arguments (the configure
flags with `..` appended, unchanged), and the separately accumulated
`COMPILE_FLAGS` sequence is never passed — it occurs in no command's
argument vector, not even as a contiguous subsequence. -/
theorem C10_build_args_equal_configure_args (env : ToolEnv) (debug : Bool)
    (hg : gitVersionOK env = true) (hc : cmakeVersionOK env = true)
    (hm : msvcCapsOK env = true) :
    buildTrace true env debug
      = ([⟨"git", ["--version"], BUILD_DIR⟩, ⟨"CMake", ["--version"], BUILD_DIR⟩,
          ⟨"CMake", ["-E", "capabilities"], BUILD_DIR⟩,
          ⟨"git", ["clone", ABSEIL_SRC], BUILD_DIR⟩,
          ⟨"cmake", config_flags debug true ++ [".."], ABSEIL_BUILD_DIR⟩,
          ⟨"cmake", config_flags debug true ++ [".."], ABSEIL_BUILD_DIR⟩], true)
  ∧ (buildTrace true env debug).1.all
      (fun c => !(containsSeq (compile_flags debug true) c.args)) = true := by
  have ht : buildTrace true env debug
      = ([⟨"git", ["--version"], BUILD_DIR⟩, ⟨"CMake", ["--version"], BUILD_DIR⟩,
          ⟨"CMake", ["-E", "capabilities"], BUILD_DIR⟩,
          ⟨"git", ["clone", ABSEIL_SRC], BUILD_DIR⟩,
          ⟨"cmake", config_flags debug true ++ [".."], ABSEIL_BUILD_DIR⟩,
          ⟨"cmake", config_flags debug true ++ [".."], ABSEIL_BUILD_DIR⟩], true) := by
    simp [buildTrace, basics_check_trace, hg, hc, hm]
  refine ⟨ht, ?_⟩
  rw [ht]
  cases debug <;> decide

/-- C10 witness: the theorem at a concrete all-gates-pass environment. -/
theorem C10_build_args_equal_configure_args_witness :
    buildTrace true (ToolEnv.mk "git version 2.40.0" "cmake version 3.31.0"
        "Visual Studio 17 2022") false
      = ([⟨"git", ["--version"], BUILD_DIR⟩, ⟨"CMake", ["--version"], BUILD_DIR⟩,
          ⟨"CMake", ["-E", "capabilities"], BUILD_DIR⟩,
          ⟨"git", ["clone", ABSEIL_SRC], BUILD_DIR⟩,
          ⟨"cmake", config_flags false true ++ [".."], ABSEIL_BUILD_DIR⟩,
          ⟨"cmake", config_flags false true ++ [".."], ABSEIL_BUILD_DIR⟩], true) :=
  (C10_build_args_equal_configure_args
    (ToolEnv.mk "git version 2.40.0" "cmake version 3.31.0" "Visual Studio 17 2022")
    false (by decide) (by decide) (by decide)).1

end Astd
